import Mathlib

/-!
Shallow embedding of the detection pipeline of `raspberry_milk_detector.py`
(class `RaspberryMilkDetector`).  Python floats are modelled as rationals,
Python ints as `Int`, the detection lists as `List Det`, and the mutable
instance attributes as a `DetectorState` record threaded through the
methods.  Each definition is translated from the corresponding function of
the source file; the definitions whose doc comment says so instead restate
the words of the specification, for comparison with the code.
-/

namespace MilkDetector

/-- The Python builtin `max(a, b)` on two integers. -/
def imax (a b : ℤ) : ℤ := if b ≤ a then a else b

/-- The Python builtin `min(a, b)` on two integers. -/
def imin (a b : ℤ) : ℤ := if a ≤ b then a else b

/-- The Python builtin `max(a, b)` on two floats. -/
def qmax (a b : ℚ) : ℚ := if b ≤ a then a else b

/-- The Python builtin `min(a, b)` on two floats. -/
def qmin (a b : ℚ) : ℚ := if a ≤ b then a else b

/-- The numpy function `np.clip(v, lo, hi)`, documented as
`minimum(hi, maximum(v, lo))`. -/
def clip (v lo hi : ℚ) : ℚ := qmin hi (qmax v lo)

/-- The Python conversion `int(q)` on a float: truncation toward zero. -/
def pyInt (q : ℚ) : ℤ := if q < 0 then -⌊-q⌋ else ⌊q⌋

/-- A detection `[x1, y1, x2, y2, confidence, class_id]` as produced by
`RaspberryMilkDetector.detect` (pixel coordinates are Python ints after the
`int(...)` conversions, confidence a float, class id an integer). -/
structure Det where
  x1 : ℤ
  y1 : ℤ
  x2 : ℤ
  y2 : ℤ
  confidence : ℚ
  classId : ℕ
deriving DecidableEq

/-- Source method `RaspberryMilkDetector.calculate_iou` (source lines 238-261), translated
verbatim.  The source computes `y1_i = max(y1_1, y2_2)`, mixing the bottom edge of the second
box into the top edge of the intersection; that line is kept
exactly as written. -/
def calculate_iou (box1 box2 : Det) : ℚ :=
  let x1_i := imax box1.x1 box2.x1
  let y1_i := imax box1.y1 box2.y2
  let x2_i := imin box1.x2 box2.x2
  let y2_i := imin box1.y2 box2.y2
  if x2_i ≤ x1_i ∨ y2_i ≤ y1_i then 0
  else
    let intersection := (x2_i - x1_i) * (y2_i - y1_i)
    let area1 := (box1.x2 - box1.x1) * (box1.y2 - box1.y1)
    let area2 := (box2.x2 - box2.x1) * (box2.y2 - box2.y1)
    let union := area1 + area2 - intersection
    if 0 < union then (intersection : ℚ) / (union : ℚ) else 0

/-- The IoU as the specification defines it (§4.2): the intersection
rectangle is built from the min/max of matching edges (top edge
`max(y1_1, y1_2)`), and the result is `intersectionArea / (area1 + area2 -
intersectionArea)`, with 0 when the boxes do not overlap or the union is
degenerate.  Stated from the words of the spec, to be compared with
`calculate_iou`. -/
def spec_iou (box1 box2 : Det) : ℚ :=
  let x1_i := imax box1.x1 box2.x1
  let y1_i := imax box1.y1 box2.y1
  let x2_i := imin box1.x2 box2.x2
  let y2_i := imin box1.y2 box2.y2
  if x2_i ≤ x1_i ∨ y2_i ≤ y1_i then 0
  else
    let intersection := (x2_i - x1_i) * (y2_i - y1_i)
    let area1 := (box1.x2 - box1.x1) * (box1.y2 - box1.y1)
    let area2 := (box2.x2 - box2.x1) * (box2.y2 - box2.y1)
    let union := area1 + area2 - intersection
    if 0 < union then (intersection : ℚ) / (union : ℚ) else 0

/-- The sort key of `sorted(detections, key=lambda x: x[4], reverse=True)`:
`a` may come before `b` when the confidence of `a` is at least that of `b`. -/
def confGE (a b : Det) : Prop := b.confidence ≤ a.confidence

instance : DecidableRel confGE :=
  fun a b => inferInstanceAs (Decidable (b.confidence ≤ a.confidence))

instance : IsTotal Det confGE := ⟨fun a b => le_total b.confidence a.confidence⟩

instance : IsTrans Det confGE := ⟨fun _ _ _ h1 h2 => le_trans h2 h1⟩

/-- The call `sorted(detections, key=lambda x: x[4], reverse=True)`: a stable sort by
descending confidence. -/
def sortByConfDesc (l : List Det) : List Det := List.insertionSort confGE l

/-- The `while detections:` loop of `non_max_suppression` (source lines
220-233): pop the highest-confidence detection, keep it, and keep only the
remaining detections whose IoU with it is below the NMS threshold.  The
loop consumes at least one element per iteration, so running it with the
input length as fuel reproduces the source loop. -/
def nmsLoop (thr : ℚ) : ℕ → List Det → List Det
  | _, [] => []
  | 0, _ :: _ => []
  | fuel + 1, current :: rest =>
      current ::
        nmsLoop thr fuel (rest.filter fun d => decide (calculate_iou current d < thr))

/-- Source method `RaspberryMilkDetector.non_max_suppression` (source lines 210-236):
return `[]` on an empty input, otherwise sort by descending confidence and
run the greedy suppression loop. -/
def non_max_suppression (thr : ℚ) (detections : List Det) : List Det :=
  if detections.isEmpty then []
  else nmsLoop thr detections.length (sortByConfDesc detections)

/-- One column of the raw output tensor `[5, N]`: normalized center-x,
center-y, width, height and confidence of one candidate anchor. -/
structure Anchor where
  cx : ℚ
  cy : ℚ
  w : ℚ
  h : ℚ
  conf : ℚ
deriving DecidableEq

/-- The per-anchor arithmetic of `detect` (source lines 183-192): convert
the normalized box to pixel coordinates, `np.clip` each coordinate to
`[0, dimension]`, truncate to int, and carry the confidence with class id
0. -/
def decodeAnchor (imageWidth imageHeight : ℚ) (a : Anchor) : Det :=
  { x1 := pyInt (clip ((a.cx - a.w / 2) * imageWidth) 0 imageWidth)
    y1 := pyInt (clip ((a.cy - a.h / 2) * imageHeight) 0 imageHeight)
    x2 := pyInt (clip ((a.cx + a.w / 2) * imageWidth) 0 imageWidth)
    y2 := pyInt (clip ((a.cy + a.h / 2) * imageHeight) 0 imageHeight)
    confidence := a.conf
    classId := 0 }

/-- The decode step of `detect` (source lines 169-193): keep the anchors
whose confidence is at least the threshold and convert each to pixel
coordinates.  `np.where(confidences >= threshold)` preserves anchor order,
so the result is a filter followed by a map. -/
def decode (confidence_threshold imageWidth imageHeight : ℚ)
    (anchors : List Anchor) : List Det :=
  (anchors.filter fun a => decide (confidence_threshold ≤ a.conf)).map
    (decodeAnchor imageWidth imageHeight)

/-- The processing path of `RaspberryMilkDetector.detect` (source lines
169-208) after inference: decode, cap at the 10 highest-confidence
detections when more than 10 survive, and apply NMS when more than one
survives. -/
def detect (confidence_threshold nms_threshold imageWidth imageHeight : ℚ)
    (anchors : List Anchor) : List Det :=
  let valid := decode confidence_threshold imageWidth imageHeight anchors
  let capped := if 10 < valid.length then (sortByConfDesc valid).take 10 else valid
  if 1 < capped.length then non_max_suppression nms_threshold capped else capped

/-- The detection step of `process_frame` (source lines 506-528) on a
processing frame, with the outcome of the inference collaborator made explicit:
`detect` wraps `interpreter.invoke()` in no handler and `process_frame`
wraps `detect` in none either, so a collaborator failure propagates
unchanged out of `process_frame`; the cached `last_detections` list is not
consulted on failure and no error counter exists anywhere in the class. -/
def process_frame_detections (confidence_threshold nms_threshold imageWidth imageHeight : ℚ)
    (last_detections : List Det) (invoke_result : Except String (List Anchor)) :
    Except String (List Det) :=
  match invoke_result with
  | Except.error e => Except.error e
  | Except.ok anchors =>
      Except.ok (detect confidence_threshold nms_threshold imageWidth imageHeight anchors)

/-- One entry of `self.speed_detection_frames` (source lines 374-381): a
timestamped detection centroid. -/
structure Obs where
  timestamp : ℚ
  center_x : ℚ
  center_y : ℚ
  confidence : ℚ
deriving DecidableEq

/-- The mutable instance attributes of `RaspberryMilkDetector` used by the
configuration and conveyor-synchronization methods. -/
structure DetectorState where
  confidence_threshold : ℚ
  nms_threshold : ℚ
  conveyor_speed : ℚ
  target_fps : ℚ
  adaptive_processing : Bool
  speed_detection_enabled : Bool
  production_line_mode : Bool
  speed_detection_frames : List Obs
  conveyor_width : ℚ
  pixel_to_meter : ℚ
  frame_skip_interval : ℤ
deriving DecidableEq

/-- The attribute values assigned in `__init__` (source lines 42-64 and
103-105) with the default arguments. -/
def initialState : DetectorState where
  confidence_threshold := 1/2
  nms_threshold := 2/5
  conveyor_speed := 0
  target_fps := 60
  adaptive_processing := true
  speed_detection_enabled := true
  production_line_mode := false
  speed_detection_frames := []
  conveyor_width := 1/2
  pixel_to_meter := 1
  frame_skip_interval := 1

/-- Source method `RaspberryMilkDetector.set_frame_skip` (source lines 292-300):
`self.frame_skip_interval = max(1, interval)`. -/
def set_frame_skip (st : DetectorState) (interval : ℤ) : DetectorState :=
  { st with frame_skip_interval := imax 1 interval }

/-- Source method `RaspberryMilkDetector.enable_low_latency_mode` (source lines 302-330):
process every frame, target 60 FPS, lower the confidence threshold to 0.4
and the NMS threshold to 0.3 when above, enable adaptive processing. -/
def enable_low_latency_mode (st : DetectorState) : DetectorState :=
  let st1 := { st with frame_skip_interval := 1, target_fps := 60 }
  let st2 :=
    if 2/5 < st1.confidence_threshold then { st1 with confidence_threshold := (2/5 : ℚ) }
    else st1
  let st3 :=
    if 3/10 < st2.nms_threshold then { st2 with nms_threshold := (3/10 : ℚ) } else st2
  { st3 with adaptive_processing := true }

/-- The low-latency-disable branch of the key handler in
`start_camera_detection` (source lines 666-671):
`self.frame_skip_interval = 2; self.target_fps = 15`. -/
def disable_low_latency_mode (st : DetectorState) : DetectorState :=
  { st with frame_skip_interval := 2, target_fps := 15 }

/-- Source method `RaspberryMilkDetector.set_conveyor_speed` (source lines 332-357):
store the given speed verbatim, then, when it is positive, derive
`required_fps = speed / 0.1`, clamp the target FPS to `[5, 30]` and pick a
frame-skip interval of 3, 2 or 1 by the 20/15 thresholds on
`required_fps`. -/
def set_conveyor_speed (st : DetectorState) (speed_mps : ℚ) : DetectorState :=
  let st1 := { st with conveyor_speed := speed_mps }
  if 0 < speed_mps then
    let required_fps := speed_mps / (1/10)
    let st2 := { st1 with target_fps := qmin 30 (qmax 5 required_fps) }
    if 20 < required_fps then { st2 with frame_skip_interval := 3 }
    else if 15 < required_fps then { st2 with frame_skip_interval := 2 }
    else { st2 with frame_skip_interval := 1 }
  else st1

/-- Source method `RaspberryMilkDetector.optimize_for_performance` (source lines
479-494): pick the frame-skip interval from the target FPS by the bands
`>=50 -> 1`, `>=30 -> 1`, `>=15 -> 2`, otherwise 3. -/
def optimize_for_performance (st : DetectorState) (target_fps : ℚ) : DetectorState :=
  if 50 ≤ target_fps then { st with frame_skip_interval := 1 }
  else if 30 ≤ target_fps then { st with frame_skip_interval := 1 }
  else if 15 ≤ target_fps then { st with frame_skip_interval := 2 }
  else { st with frame_skip_interval := 3 }

/-- Source method `RaspberryMilkDetector.auto_adjust_processing` (source lines 424-455):
when the conveyor speed is positive, recompute the frame-skip interval from
`required_detection_freq = speed / 0.1` by the 25/15 thresholds, then raise
the confidence threshold to 0.7 above 2 m/s or to 0.6 above 1 m/s when it
is lower. -/
def auto_adjust_processing (st : DetectorState) : DetectorState :=
  if st.conveyor_speed ≤ 0 then st
  else
    let required_detection_freq := st.conveyor_speed / (1/10)
    let new_interval : ℤ :=
      if 25 < required_detection_freq then 3
      else if 15 < required_detection_freq then 2
      else 1
    let st1 :=
      if new_interval ≠ st.frame_skip_interval then
        { st with frame_skip_interval := new_interval }
      else st
    if 2 < st1.conveyor_speed then
      if st1.confidence_threshold < 7/10 then { st1 with confidence_threshold := (7/10 : ℚ) }
      else st1
    else if 1 < st1.conveyor_speed then
      if st1.confidence_threshold < 6/10 then { st1 with confidence_threshold := (6/10 : ℚ) }
      else st1
    else st1

/-- The centroid sample appended by `detect_conveyor_speed` for one
detection (source lines 373-381). -/
def centerObs (now : ℚ) (d : Det) : Obs :=
  { timestamp := now
    center_x := ((d.x1 : ℚ) + (d.x2 : ℚ)) / 2
    center_y := ((d.y1 : ℚ) + (d.y2 : ℚ)) / 2
    confidence := d.confidence }

/-- The sample window after one call of `detect_conveyor_speed` (source
lines 373-389): append one centroid sample per detection, then keep only
the samples of the last 5 seconds (timestamps strictly above
`cutoff_time = current_time - 5.0`). -/
def updated_frames (st : DetectorState) (dets : List Det) (now : ℚ) : List Obs :=
  (st.speed_detection_frames ++ dets.map (centerObs now)).filter
    fun f => decide (now - 5 < f.timestamp)

/-- The `horizontal_movements` list of `detect_conveyor_speed` (source
lines 393-412): for each successive pair of stored samples, when the
displacement is horizontal-dominant (`abs(x_diff) > abs(y_diff)`) and time
advanced, compute `(abs(x_diff) / pixel_to_meter) / time_diff` and
keep it when it lies strictly between 0.01 and 10 m/s. -/
def horizontal_movements (ratio : ℚ) (frames : List Obs) : List ℚ :=
  (frames.zip frames.tail).filterMap fun pc =>
    let time_diff := pc.2.timestamp - pc.1.timestamp
    let x_diff := pc.2.center_x - pc.1.center_x
    let y_diff := pc.2.center_y - pc.1.center_y
    if |y_diff| < |x_diff| ∧ 0 < time_diff then
      let speed_mps := (|x_diff| / ratio) / time_diff
      if 1/100 < speed_mps ∧ speed_mps < 10 then some speed_mps else none
    else none

/-- Section 4.5 of the specification restated in its own words: compute the
per-pair instantaneous speed of each successive pair of samples whose
dominant displacement axis is horizontal, as pixel displacement over
`pixelToMeterRatio` divided by elapsed time, then discard the computed
samples outside the plausibility band 0.01-10 m/s.  Stated from the spec,
to be compared with `horizontal_movements`. -/
def spec_surviving_speeds (ratio : ℚ) (frames : List Obs) : List ℚ :=
  ((frames.zip frames.tail).filterMap fun pc =>
      if |pc.2.center_y - pc.1.center_y| < |pc.2.center_x - pc.1.center_x| ∧
          0 < pc.2.timestamp - pc.1.timestamp then
        some ((|pc.2.center_x - pc.1.center_x| / ratio) / (pc.2.timestamp - pc.1.timestamp))
      else none).filter
    fun s => decide (1/100 < s ∧ s < 10)

/-- Source method `RaspberryMilkDetector.detect_conveyor_speed` (source lines 359-422):
return unchanged when speed detection is disabled or no detections came in;
otherwise append and prune the sample window, and when at least 3 samples
remain and some horizontal movement survives the plausibility band, publish
the arithmetic mean of the surviving speeds and, if adaptive processing is
on, run `auto_adjust_processing`. -/
def detect_conveyor_speed (st : DetectorState) (dets : List Det) (now : ℚ) :
    DetectorState :=
  if st.speed_detection_enabled = false ∨ dets = [] then st
  else
    let frames := updated_frames st dets now
    let st1 := { st with speed_detection_frames := frames }
    if 3 ≤ frames.length then
      let hm := horizontal_movements st1.pixel_to_meter frames
      if hm = [] then st1
      else
        let st2 := { st1 with conveyor_speed := hm.sum / (hm.length : ℚ) }
        if st2.adaptive_processing then auto_adjust_processing st2 else st2
    else st1

/-- The stored samples used by the counterexample and witness scenarios
below: a centroid at the origin at time 0 and one 5 pixels to its right at
time 1. -/
def obsA : Obs := ⟨0, 0, 0, 1⟩

/-- See `obsA`. -/
def obsB : Obs := ⟨1, 5, 0, 1⟩

/-- A detector state with two stored samples, adaptive processing off. -/
def stTwoSamples : DetectorState :=
  { initialState with adaptive_processing := false, speed_detection_frames := [obsA, obsB] }

/-- A detector state with one stored sample, adaptive processing off. -/
def stOneSample : DetectorState :=
  { initialState with adaptive_processing := false, speed_detection_frames := [obsA] }

end MilkDetector

namespace MilkDetector

lemma nmsLoop_sublist (thr : ℚ) : ∀ (fuel : ℕ) (l : List Det), (nmsLoop thr fuel l).Sublist l
  | _, [] => by simp [nmsLoop]
  | 0, _ :: _ => by simp [nmsLoop]
  | fuel + 1, current :: rest => by
      simp only [nmsLoop]
      exact List.Sublist.cons₂ current
        ((nmsLoop_sublist thr fuel _).trans (List.filter_sublist rest))

lemma nmsLoop_pairwise (thr : ℚ) :
    ∀ (fuel : ℕ) (l : List Det),
      (nmsLoop thr fuel l).Pairwise (fun a b => calculate_iou a b < thr)
  | _, [] => by simp [nmsLoop]
  | 0, _ :: _ => by simp [nmsLoop]
  | fuel + 1, current :: rest => by
      simp only [nmsLoop]
      refine List.Pairwise.cons (fun b hb => ?_) (nmsLoop_pairwise thr fuel _)
      have hb2 : b ∈ rest.filter fun d => decide (calculate_iou current d < thr) :=
        (nmsLoop_sublist thr fuel _).subset hb
      have hb3 := (List.mem_filter.mp hb2).2
      simp only [decide_eq_true_eq] at hb3
      exact hb3

lemma mem_of_mem_nms {thr : ℚ} {dets : List Det} {d : Det}
    (h : d ∈ non_max_suppression thr dets) : d ∈ dets := by
  unfold non_max_suppression at h
  split at h
  · simp at h
  · exact (List.perm_insertionSort confGE dets).subset
      ((nmsLoop_sublist thr _ _).subset h)

lemma nms_sorted (thr : ℚ) (dets : List Det) :
    (non_max_suppression thr dets).Pairwise confGE := by
  unfold non_max_suppression
  split
  · simp
  · exact List.Pairwise.sublist (nmsLoop_sublist thr _ _)
      (List.sorted_insertionSort confGE dets)

lemma nms_pairwise_iou (thr : ℚ) (dets : List Det) :
    (non_max_suppression thr dets).Pairwise (fun a b => calculate_iou a b < thr) := by
  unfold non_max_suppression
  split
  · simp
  · exact nmsLoop_pairwise thr _ _

end MilkDetector

namespace MilkDetector

/-- C1: the claim states that `calculate_iou` of a non-degenerate box with
itself is 1.0 and of disjoint boxes is 0.0.  The disjoint half holds, but
the self half fails: the source line `y1_i = max(y1_1, y2_2)` makes the
degenerate-intersection test fire for every pair of boxes, so the box
(0, 0, 10, 10) against itself yields 0 where the own IoU definition of the spec yields 1
(the spec flags this very slip in §9). -/
theorem calculate_iou_self_zero :
    calculate_iou ⟨0, 0, 10, 10, 1, 0⟩ ⟨0, 0, 10, 10, 1, 0⟩ = 0 ∧
    spec_iou ⟨0, 0, 10, 10, 1, 0⟩ ⟨0, 0, 10, 10, 1, 0⟩ = 1 ∧
    calculate_iou ⟨0, 0, 10, 10, 1, 0⟩ ⟨20, 20, 30, 30, 1, 0⟩ = 0 := by
  refine ⟨?_, ?_, ?_⟩ <;> norm_num [calculate_iou, spec_iou, imax, imin]

/-- C2: the claim states that two overlapping detections of IoU 0.8 with
confidences 0.9 and 0.6 leave only the 0.9 one after NMS at threshold 0.4.
On the boxes (0,0,10,9) and (0,1,10,10), whose true IoU is 4/5, the
`calculate_iou` of the code returns 0 (the y-coordinate slip of C1), so
`non_max_suppression` suppresses nothing and returns both detections. -/
theorem nms_overlap_scenario :
    spec_iou ⟨0, 0, 10, 9, 9/10, 0⟩ ⟨0, 1, 10, 10, 6/10, 0⟩ = 4/5 ∧
    calculate_iou ⟨0, 0, 10, 9, 9/10, 0⟩ ⟨0, 1, 10, 10, 6/10, 0⟩ = 0 ∧
    non_max_suppression (2/5) [⟨0, 0, 10, 9, 9/10, 0⟩, ⟨0, 1, 10, 10, 6/10, 0⟩]
      = [⟨0, 0, 10, 9, 9/10, 0⟩, ⟨0, 1, 10, 10, 6/10, 0⟩] := by
  refine ⟨?_, ?_, ?_⟩
  · norm_num [spec_iou, imax, imin]
  · norm_num [calculate_iou, imax, imin]
  · norm_num [non_max_suppression, nmsLoop, sortByConfDesc, List.insertionSort,
      List.orderedInsert, confGE, calculate_iou, imax, imin, List.filter]

/-- C3: for every detection list and threshold, the output of
`non_max_suppression` is a subset of its input, is ordered by descending
confidence, and no two retained boxes have an IoU (as `calculate_iou`
computes it) at or above the threshold. -/
theorem non_max_suppression_spec (thr : ℚ) (dets : List Det) :
    (∀ d ∈ non_max_suppression thr dets, d ∈ dets) ∧
    (non_max_suppression thr dets).Pairwise (fun a b => b.confidence ≤ a.confidence) ∧
    (non_max_suppression thr dets).Pairwise (fun a b => calculate_iou a b < thr) :=
  ⟨fun _ h => mem_of_mem_nms h, nms_sorted thr dets, nms_pairwise_iou thr dets⟩

/-- C4: the end-to-end scenario of the spec expects the anchor
(cx=0.5, cy=0.5, w=0.2, h=0.2, conf=0.9) on a 640x480 image at threshold
0.5 to decode to (224, 168, 416, 312).  The decode formula of the spec itself gives
`x1 = (0.5 - 0.1) * 640 = 256`, which the code computes; 256 misses the
claimed 224 by far more than the 1-pixel rounding allowance. -/
theorem detect_single_anchor_counterexample :
    detect (1/2) (2/5) 640 480 [⟨1/2, 1/2, 1/5, 1/5, 9/10⟩]
      = [⟨256, 192, 384, 288, 9/10, 0⟩] ∧
    (1 : ℤ) < |256 - 224| := by
  constructor
  · norm_num [detect, decode, decodeAnchor, clip, qmax, qmin, pyInt, List.filter]
  · norm_num

/-- C4 (amended): decoding the single anchor
(cx=0.5, cy=0.5, w=0.2, h=0.2, conf=0.9) on a 640x480 image at threshold
0.5 yields exactly the detection (x1=256, y1=192, x2=384, y2=288,
confidence=0.9, classId=0), and that detection survives NMS. -/
theorem detect_single_anchor :
    detect (1/2) (2/5) 640 480 [⟨1/2, 1/2, 1/5, 1/5, 9/10⟩]
      = [⟨256, 192, 384, 288, 9/10, 0⟩] ∧
    non_max_suppression (2/5) [⟨256, 192, 384, 288, 9/10, 0⟩]
      = [⟨256, 192, 384, 288, 9/10, 0⟩] := by
  constructor
  · norm_num [detect, decode, decodeAnchor, clip, qmax, qmin, pyInt, List.filter]
  · norm_num [non_max_suppression, nmsLoop, sortByConfDesc, List.insertionSort,
      List.orderedInsert, List.filter]

end MilkDetector

namespace MilkDetector

lemma mem_detect {ct nt W H : ℚ} {anchors : List Anchor} {d : Det}
    (h : d ∈ detect ct nt W H anchors) : d ∈ decode ct W H anchors := by
  simp only [detect] at h
  split at h
  · have h2 : d ∈ (sortByConfDesc (decode ct W H anchors)).take 10 := by
      split at h
      · exact mem_of_mem_nms h
      · exact h
    exact (List.perm_insertionSort confGE _).subset ((List.take_sublist 10 _).subset h2)
  · split at h
    · exact mem_of_mem_nms h
    · exact h

lemma mem_decode {ct W H : ℚ} {anchors : List Anchor} {d : Det}
    (h : d ∈ decode ct W H anchors) :
    ∃ a, a ∈ anchors ∧ ct ≤ a.conf ∧ d = decodeAnchor W H a := by
  unfold decode at h
  obtain ⟨a, ha, rfl⟩ := List.mem_map.mp h
  have hconf := (List.mem_filter.mp ha).2
  simp only [decide_eq_true_eq] at hconf
  exact ⟨a, List.mem_of_mem_filter ha, hconf, rfl⟩

lemma clip_bounds {hi : ℚ} (v : ℚ) (h : 0 ≤ hi) :
    0 ≤ clip v 0 hi ∧ clip v 0 hi ≤ hi := by
  constructor <;> (unfold clip qmin qmax; split_ifs <;> linarith)

lemma pyInt_bounds {q hi : ℚ} (h0 : 0 ≤ q) (hq : q ≤ hi) :
    0 ≤ pyInt q ∧ (pyInt q : ℚ) ≤ hi := by
  unfold pyInt
  rw [if_neg (not_lt.mpr h0)]
  exact ⟨Int.floor_nonneg.mpr h0, le_trans (Int.floor_le q) hq⟩

lemma decodeAnchor_bounds {W H : ℚ} (hW : 0 ≤ W) (hH : 0 ≤ H) (a : Anchor) :
    0 ≤ (decodeAnchor W H a).x1 ∧ ((decodeAnchor W H a).x1 : ℚ) ≤ W ∧
    0 ≤ (decodeAnchor W H a).x2 ∧ ((decodeAnchor W H a).x2 : ℚ) ≤ W ∧
    0 ≤ (decodeAnchor W H a).y1 ∧ ((decodeAnchor W H a).y1 : ℚ) ≤ H ∧
    0 ≤ (decodeAnchor W H a).y2 ∧ ((decodeAnchor W H a).y2 : ℚ) ≤ H := by
  have hx1 := clip_bounds ((a.cx - a.w / 2) * W) hW
  have hx2 := clip_bounds ((a.cx + a.w / 2) * W) hW
  have hy1 := clip_bounds ((a.cy - a.h / 2) * H) hH
  have hy2 := clip_bounds ((a.cy + a.h / 2) * H) hH
  exact ⟨(pyInt_bounds hx1.1 hx1.2).1, (pyInt_bounds hx1.1 hx1.2).2,
    (pyInt_bounds hx2.1 hx2.2).1, (pyInt_bounds hx2.1 hx2.2).2,
    (pyInt_bounds hy1.1 hy1.2).1, (pyInt_bounds hy1.1 hy1.2).2,
    (pyInt_bounds hy2.1 hy2.2).1, (pyInt_bounds hy2.1 hy2.2).2⟩

end MilkDetector

namespace MilkDetector

/-- C5: for every raw output tensor, nonnegative image dimensions and
thresholds, every detection produced by `detect` has confidence at least
the confidence threshold and coordinates inside `[0, width] x [0, height]`;
and when the confidence of every anchor is below the threshold, `detect`
returns the empty list. -/
theorem detect_bounds_and_empty (ct nt W H : ℚ) (anchors : List Anchor)
    (hW : 0 ≤ W) (hH : 0 ≤ H) :
    (∀ d ∈ detect ct nt W H anchors,
      ct ≤ d.confidence ∧
      0 ≤ d.x1 ∧ (d.x1 : ℚ) ≤ W ∧ 0 ≤ d.x2 ∧ (d.x2 : ℚ) ≤ W ∧
      0 ≤ d.y1 ∧ (d.y1 : ℚ) ≤ H ∧ 0 ≤ d.y2 ∧ (d.y2 : ℚ) ≤ H) ∧
    ((∀ a ∈ anchors, a.conf < ct) → detect ct nt W H anchors = []) := by
  constructor
  · intro d hd
    obtain ⟨a, _, hconf, rfl⟩ := mem_decode (mem_detect hd)
    have hb := decodeAnchor_bounds hW hH a
    exact ⟨hconf, hb.1, hb.2.1, hb.2.2.1, hb.2.2.2.1, hb.2.2.2.2.1,
      hb.2.2.2.2.2.1, hb.2.2.2.2.2.2.1, hb.2.2.2.2.2.2.2⟩
  · intro hall
    have hdec : decode ct W H anchors = [] := by
      unfold decode
      have hfil : anchors.filter (fun a => decide (ct ≤ a.conf)) = [] := by
        rw [List.filter_eq_nil_iff]
        intro a ha
        simp only [decide_eq_true_eq]
        exact not_le.mpr (hall a ha)
      rw [hfil]
      rfl
    simp [detect, hdec]

/-- Witness for C5 at a concrete low-confidence tensor on a 640x480
image. -/
theorem detect_bounds_and_empty_witness :
    0 ≤ (640 : ℚ) ∧ 0 ≤ (480 : ℚ) ∧
    ((∀ d ∈ detect (1/2) (2/5) 640 480 [⟨1/2, 1/2, 1/5, 1/5, 1/4⟩],
        (1/2 : ℚ) ≤ d.confidence ∧
        0 ≤ d.x1 ∧ (d.x1 : ℚ) ≤ 640 ∧ 0 ≤ d.x2 ∧ (d.x2 : ℚ) ≤ 640 ∧
        0 ≤ d.y1 ∧ (d.y1 : ℚ) ≤ 480 ∧ 0 ≤ d.y2 ∧ (d.y2 : ℚ) ≤ 480) ∧
      ((∀ a ∈ [(⟨1/2, 1/2, 1/5, 1/5, 1/4⟩ : Anchor)], a.conf < (1/2 : ℚ)) →
        detect (1/2) (2/5) 640 480 [⟨1/2, 1/2, 1/5, 1/5, 1/4⟩] = [])) :=
  ⟨by norm_num, by norm_num,
    detect_bounds_and_empty (1/2) (2/5) 640 480 [⟨1/2, 1/2, 1/5, 1/5, 1/4⟩]
      (by norm_num) (by norm_num)⟩

/-- C6: `optimize_for_performance` maps the target FPS to the frame-skip
interval by the bands >=50 -> 1, 30-49 -> 1, 15-29 -> 2, <15 -> 3; in
particular 60 yields 1 and 10 yields 3. -/
theorem optimize_for_performance_bands (st : DetectorState) (t : ℚ) :
    ((50 ≤ t → (optimize_for_performance st t).frame_skip_interval = 1) ∧
     (30 ≤ t ∧ t < 50 → (optimize_for_performance st t).frame_skip_interval = 1) ∧
     (15 ≤ t ∧ t < 30 → (optimize_for_performance st t).frame_skip_interval = 2) ∧
     (t < 15 → (optimize_for_performance st t).frame_skip_interval = 3)) ∧
    (optimize_for_performance st 60).frame_skip_interval = 1 ∧
    (optimize_for_performance st 10).frame_skip_interval = 3 := by
  refine ⟨⟨fun h => ?_, fun h => ?_, fun h => ?_, fun h => ?_⟩, ?_, ?_⟩
  · unfold optimize_for_performance; split_ifs <;> first | rfl | linarith
  · obtain ⟨h1, h2⟩ := h
    unfold optimize_for_performance; split_ifs <;> first | rfl | linarith
  · obtain ⟨h1, h2⟩ := h
    unfold optimize_for_performance; split_ifs <;> first | rfl | linarith
  · unfold optimize_for_performance; split_ifs <;> first | rfl | linarith
  · norm_num [optimize_for_performance]
  · norm_num [optimize_for_performance]

/-- Witness for C6: the two concrete FPS values named by the claim. -/
theorem optimize_for_performance_bands_witness :
    (optimize_for_performance initialState 60).frame_skip_interval = 1 ∧
    (optimize_for_performance initialState 10).frame_skip_interval = 3 :=
  ⟨(optimize_for_performance_bands initialState 60).2.1,
   (optimize_for_performance_bands initialState 10).2.2⟩

/-- C8: the claim states that an inference failure is surfaced as an
`InferenceError` and that the pipeline loop recovers by falling back to the
cached detection list and incrementing an error counter.  The code has no
such error type, counter, or handler: a collaborator failure propagates
unchanged out of the detection step of `process_frame`, and the cached
list is not returned. -/
theorem process_frame_inference_error_propagates :
    process_frame_detections (1/2) (2/5) 640 480 [⟨0, 0, 10, 10, 9/10, 0⟩]
        (Except.error ("invoke failed"))
      = Except.error ("invoke failed") ∧
    process_frame_detections (1/2) (2/5) 640 480 [⟨0, 0, 10, 10, 9/10, 0⟩]
        (Except.error ("invoke failed"))
      ≠ Except.ok [⟨0, 0, 10, 10, 9/10, 0⟩] := by
  constructor
  · rfl
  · simp [process_frame_detections]

end MilkDetector

namespace MilkDetector

lemma mem_horizontal_movements {ratio s : ℚ} {frames : List Obs}
    (h : s ∈ horizontal_movements ratio frames) : 1/100 < s ∧ s < 10 := by
  simp only [horizontal_movements] at h
  obtain ⟨pc, -, hpc⟩ := List.mem_filterMap.mp h
  split_ifs at hpc with h1 h2
  obtain rfl := Option.some_inj.mp hpc
  exact h2

lemma horizontal_movements_eq (ratio : ℚ) (frames : List Obs) :
    horizontal_movements ratio frames = spec_surviving_speeds ratio frames := by
  simp only [horizontal_movements, spec_surviving_speeds, List.filter_filterMap]
  apply List.filterMap_congr
  intro pc _
  dsimp only
  by_cases h1 : |pc.2.center_y - pc.1.center_y| < |pc.2.center_x - pc.1.center_x| ∧
      0 < pc.2.timestamp - pc.1.timestamp
  · rw [if_pos h1, if_pos h1]
    simp only [Option.filter]
    by_cases h2 : 1/100 < |pc.2.center_x - pc.1.center_x| / ratio /
        (pc.2.timestamp - pc.1.timestamp) ∧
        |pc.2.center_x - pc.1.center_x| / ratio / (pc.2.timestamp - pc.1.timestamp) < 10
    · rw [if_pos h2, if_pos (by simpa using h2)]
    · rw [if_neg h2, if_neg (by simpa using h2)]
  · rw [if_neg h1, if_neg h1]
    rfl

lemma auto_adjust_conveyor (st : DetectorState) :
    (auto_adjust_processing st).conveyor_speed = st.conveyor_speed := by
  simp only [auto_adjust_processing]
  split_ifs <;> rfl

lemma detect_conveyor_speed_nonneg (st : DetectorState) (dets : List Det) (now : ℚ)
    (hst : 0 ≤ st.conveyor_speed) :
    0 ≤ (detect_conveyor_speed st dets now).conveyor_speed := by
  have hmean : (0 : ℚ) ≤
      (horizontal_movements st.pixel_to_meter (updated_frames st dets now)).sum /
      ((horizontal_movements st.pixel_to_meter (updated_frames st dets now)).length : ℚ) := by
    have hpos : ∀ x ∈ horizontal_movements st.pixel_to_meter (updated_frames st dets now),
        (0 : ℚ) ≤ x := by
      intro x hx
      have hb := (mem_horizontal_movements hx).1
      linarith
    exact div_nonneg (List.sum_nonneg hpos) (Nat.cast_nonneg _)
  simp only [detect_conveyor_speed]
  split_ifs with h1 h2 h3 h4
  · exact hst
  · exact hst
  · rw [auto_adjust_conveyor]
    exact hmean
  · exact hmean
  · exact hst

end MilkDetector

namespace MilkDetector

/-- C7: whenever every successive pair of stored centroid samples is
vertical-dominant, `detect_conveyor_speed` leaves a zero conveyor speed at
zero; and when speed detection runs (enabled, detections present, at least
3 stored samples) and at least one per-pair speed survives the 0.01-10 m/s
plausibility band, the published speed is the unweighted arithmetic mean of
exactly the surviving speeds.  (The claim as frozen omits the at-least-3-
samples and nonempty-survivors provisos; see the counterexample.) -/
theorem detect_conveyor_speed_spec (st : DetectorState) (dets : List Det) (now : ℚ) :
    ((st.conveyor_speed = 0 ∧
      ∀ pc ∈ (updated_frames st dets now).zip (updated_frames st dets now).tail,
        |pc.2.center_x - pc.1.center_x| ≤ |pc.2.center_y - pc.1.center_y|) →
      (detect_conveyor_speed st dets now).conveyor_speed = 0) ∧
    ((st.speed_detection_enabled = true ∧ dets ≠ [] ∧
      3 ≤ (updated_frames st dets now).length ∧
      spec_surviving_speeds st.pixel_to_meter (updated_frames st dets now) ≠ []) →
      (detect_conveyor_speed st dets now).conveyor_speed =
        (spec_surviving_speeds st.pixel_to_meter (updated_frames st dets now)).sum /
        ((spec_surviving_speeds st.pixel_to_meter (updated_frames st dets now)).length : ℚ)) := by
  constructor
  · rintro ⟨h0, hvert⟩
    have hm0 : horizontal_movements st.pixel_to_meter (updated_frames st dets now)
        = [] := by
      simp only [horizontal_movements]
      rw [List.filterMap_eq_nil_iff]
      intro pc hpc
      rw [if_neg]
      rintro ⟨hlt, -⟩
      exact absurd hlt (not_lt.mpr (hvert pc hpc))
    simp only [detect_conveyor_speed]
    split_ifs with h1 h2
    · exact h0
    · exact h0
    · exact h0
  · rintro ⟨hen, hdets, hlen, hne⟩
    have heq := horizontal_movements_eq st.pixel_to_meter (updated_frames st dets now)
    have hc1 : ¬(st.speed_detection_enabled = false ∨ dets = []) := by
      simp [hen, hdets]
    have hc3 : ¬(spec_surviving_speeds st.pixel_to_meter
        (updated_frames st dets now) = []) := hne
    simp only [detect_conveyor_speed]
    rw [heq]
    split_ifs with h4
    · rw [auto_adjust_conveyor]
    · rfl

/-- C7 counterexample: with one stored sample and one incoming detection the
window holds 2 samples forming one horizontal-dominant pair whose speed 5
m/s survives the plausibility band, yet `detect_conveyor_speed` leaves the
published speed at 0 (the code requires at least 3 stored samples), not at
the mean 5 of the surviving speeds. -/
theorem detect_conveyor_speed_pair_counterexample :
    spec_surviving_speeds stOneSample.pixel_to_meter
        (updated_frames stOneSample [⟨0, 0, 10, 0, 9/10, 0⟩] 1) = [5] ∧
    (detect_conveyor_speed stOneSample [⟨0, 0, 10, 0, 9/10, 0⟩] 1).conveyor_speed = 0 ∧
    (5 : ℚ) ≠ 0 := by
  refine ⟨?_, ?_, by norm_num⟩
  · norm_num [spec_surviving_speeds, updated_frames, centerObs, stOneSample, obsA,
      initialState, List.filter, List.zip, List.zipWith, List.filterMap]
  · norm_num [detect_conveyor_speed, updated_frames, centerObs, stOneSample, obsA,
      initialState, List.filter]

/-- Witness for C7 at a window of three collinear horizontally-moving
samples: the published speed equals the mean of the surviving per-pair
speeds. -/
theorem detect_conveyor_speed_spec_witness :
    (detect_conveyor_speed stTwoSamples [⟨6, 0, 14, 0, 9/10, 0⟩] 2).conveyor_speed =
      (spec_surviving_speeds stTwoSamples.pixel_to_meter
          (updated_frames stTwoSamples [⟨6, 0, 14, 0, 9/10, 0⟩] 2)).sum /
        ((spec_surviving_speeds stTwoSamples.pixel_to_meter
          (updated_frames stTwoSamples [⟨6, 0, 14, 0, 9/10, 0⟩] 2)).length : ℚ) :=
  (detect_conveyor_speed_spec stTwoSamples [⟨6, 0, 14, 0, 9/10, 0⟩] 2).2
    ⟨rfl, by simp,
      by norm_num [updated_frames, centerObs, stTwoSamples, obsA, obsB, initialState,
        List.filter],
      by
        have h5 : spec_surviving_speeds stTwoSamples.pixel_to_meter
            (updated_frames stTwoSamples [⟨6, 0, 14, 0, 9/10, 0⟩] 2) = [5, 5] := by
          norm_num [spec_surviving_speeds, updated_frames, centerObs, stTwoSamples, obsA,
            obsB, initialState, List.filter, List.zip, List.zipWith, List.filterMap]
        simp [h5]⟩

/-- C9: every mutator of the performance state leaves the frame-skip
interval at least 1: `set_frame_skip` for any integer argument,
`optimize_for_performance` for any target FPS, `auto_adjust_processing`
(which preserves an interval already at least 1), and enabling or
disabling low-latency mode. -/
theorem frame_skip_interval_invariant (st : DetectorState) (interval : ℤ)
    (target_fps : ℚ) (h : 1 ≤ st.frame_skip_interval) :
    1 ≤ (set_frame_skip st interval).frame_skip_interval ∧
    1 ≤ (optimize_for_performance st target_fps).frame_skip_interval ∧
    1 ≤ (auto_adjust_processing st).frame_skip_interval ∧
    1 ≤ (enable_low_latency_mode st).frame_skip_interval ∧
    1 ≤ (disable_low_latency_mode st).frame_skip_interval := by
  refine ⟨?_, ?_, ?_, ?_, ?_⟩
  · show (1 : ℤ) ≤ imax 1 interval
    unfold imax
    split_ifs <;> omega
  · simp only [optimize_for_performance]
    split_ifs <;> norm_num
  · simp only [auto_adjust_processing]
    split_ifs <;> first | exact h | norm_num
  · simp only [enable_low_latency_mode]
    split_ifs <;> norm_num
  · norm_num [disable_low_latency_mode]

/-- Witness for C9 at the initial state with a negative `set_frame_skip`
argument and a low target FPS. -/
theorem frame_skip_interval_invariant_witness :
    1 ≤ initialState.frame_skip_interval ∧
    (1 ≤ (set_frame_skip initialState (-5)).frame_skip_interval ∧
     1 ≤ (optimize_for_performance initialState 10).frame_skip_interval ∧
     1 ≤ (auto_adjust_processing initialState).frame_skip_interval ∧
     1 ≤ (enable_low_latency_mode initialState).frame_skip_interval ∧
     1 ≤ (disable_low_latency_mode initialState).frame_skip_interval) :=
  ⟨by norm_num [initialState],
    frame_skip_interval_invariant initialState (-5) 10 (by norm_num [initialState])⟩

/-- C10 counterexample: `set_conveyor_speed` stores its argument verbatim,
so passing -1 leaves a negative stored conveyor speed, refuting the claim
that the speed stays nonnegative for every float argument. -/
theorem set_conveyor_speed_negative_counterexample :
    (set_conveyor_speed initialState (-1)).conveyor_speed = -1 ∧
    ¬(0 ≤ (set_conveyor_speed initialState (-1)).conveyor_speed) := by
  norm_num [set_conveyor_speed]

/-- C10 (amended): the invariant speed >= 0 is preserved by
`set_conveyor_speed` for every nonnegative argument (the setter stores its
argument unvalidated, so negative arguments break it), and by every update
`detect_conveyor_speed` makes from a nonnegative state. -/
theorem conveyor_speed_nonneg_preserved (st : DetectorState) (s : ℚ)
    (dets : List Det) (now : ℚ) (hs : 0 ≤ s) (hst : 0 ≤ st.conveyor_speed) :
    0 ≤ (set_conveyor_speed st s).conveyor_speed ∧
    0 ≤ (detect_conveyor_speed st dets now).conveyor_speed := by
  constructor
  · simp only [set_conveyor_speed]
    split_ifs <;> exact hs
  · exact detect_conveyor_speed_nonneg st dets now hst

/-- Witness for C10 at the initial state with speed 3 m/s set and an empty
detection list observed. -/
theorem conveyor_speed_nonneg_preserved_witness :
    0 ≤ (3 : ℚ) ∧ 0 ≤ initialState.conveyor_speed ∧
    (0 ≤ (set_conveyor_speed initialState 3).conveyor_speed ∧
     0 ≤ (detect_conveyor_speed initialState [] 0).conveyor_speed) :=
  ⟨by norm_num, by norm_num [initialState],
    conveyor_speed_nonneg_preserved initialState 3 [] 0 (by norm_num)
      (by norm_num [initialState])⟩

end MilkDetector
